import Mathlib

/-!
Shallow embedding of the clawworker gateway core: the access middleware
(`src/auth/middleware.ts`), the R2 credential-scoped sync engine
(`src/gateway/r2.ts`, `src/gateway/sync.ts`) and the admin API handlers
(`src/routes/api.ts`).  Environment variables are `Option String`
(`none` = undefined); JavaScript truthiness of a string is "non-empty".
External effects (sandbox `exec`, `writeFile`, process runs) are modelled
by explicit oracle records giving each call's observable result, and,
where the claims need it, by an explicit trace of sandbox operations.
-/

/-- JS truthiness of a `string | undefined | null` value: defined and non-empty. -/
def jsTruthy : Option String → Bool
  | none => false
  | some s => !(s == "")

/-- JS `a || b` on `string | undefined | null` operands: keeps `a` when truthy,
otherwise falls through to `b`. -/
def jsOrS : Option String → Option String → Option String
  | some s, b => if s == "" then b else some s
  | none, b => b

/-- JS `String.prototype.trim()`: strip leading and trailing whitespace
(structurally computable embedding of `.trim()`). -/
def jsTrim (s : String) : String :=
  String.mk (((s.data.dropWhile Char.isWhitespace).reverse.dropWhile Char.isWhitespace).reverse)

/-- The worker environment bindings read by the embedded code
(`MoltbotEnv` fields that the modelled functions consume). -/
structure Env where
  R2_ACCESS_KEY_ID : Option String
  R2_SECRET_ACCESS_KEY : Option String
  CF_ACCOUNT_ID : Option String
  R2_BUCKET_NAME : Option String
  CF_ACCESS_TEAM_DOMAIN : Option String
  CF_ACCESS_AUD : Option String
  GATEWAY_TOKEN : Option String
  MOLTBOT_GATEWAY_TOKEN : Option String
  DEV_MODE : Option String
  E2E_TEST_MODE : Option String
deriving DecidableEq, Repr

/-- `getR2BucketName` from `src/config.ts`: `env?.R2_BUCKET_NAME || 'clawworker-data'`. -/
def getR2BucketName (env : Env) : String :=
  match env.R2_BUCKET_NAME with
  | some s => if s == "" then "clawworker-data" else s
  | none => "clawworker-data"

/-- `getGatewayToken` from `src/config.ts`:
`env.GATEWAY_TOKEN ?? env.MOLTBOT_GATEWAY_TOKEN` (nullish coalescing, so a
defined empty string is kept). -/
def getGatewayToken (env : Env) : Option String :=
  match env.GATEWAY_TOKEN with
  | some s => some s
  | none => env.MOLTBOT_GATEWAY_TOKEN

/-- `isDevMode` from `src/auth/middleware.ts`: `env.DEV_MODE === 'true'`. -/
def isDevMode (env : Env) : Bool :=
  env.DEV_MODE == some "true"

/-- `isE2ETestMode` from `src/auth/middleware.ts`: `env.E2E_TEST_MODE === 'true'`. -/
def isE2ETestMode (env : Env) : Bool :=
  env.E2E_TEST_MODE == some "true"

/-- `isBootstrapMode` from `src/auth/middleware.ts`:
`hasAccess = !!(env.CF_ACCESS_TEAM_DOMAIN && env.CF_ACCESS_AUD)` and the result
is `!hasAccess && !!getGatewayToken(env)`. -/
def isBootstrapMode (env : Env) : Bool :=
  !(jsTruthy env.CF_ACCESS_TEAM_DOMAIN && jsTruthy env.CF_ACCESS_AUD) &&
    jsTruthy (getGatewayToken env)

/-- The request inputs the middleware reads: the `token` query parameter
(`url.searchParams.get('token')`, `some ""` when present with an empty value),
the `X-Gateway-Token` header, the `CF-Access-JWT-Assertion` header and the
`CF_Authorization` cookie value. -/
structure Request where
  queryToken : Option String
  headerGatewayToken : Option String
  jwtHeader : Option String
  jwtCookie : Option String
deriving DecidableEq, Repr

/-- `extractGatewayToken` from `src/auth/middleware.ts`:
`queryToken || headerToken || null`. -/
def extractGatewayToken (r : Request) : Option String :=
  jsOrS r.queryToken (jsOrS r.headerGatewayToken none)

/-- `extractJWT` from `src/auth/middleware.ts`: `jwtHeader || jwtCookie || null`. -/
def extractJWT (r : Request) : Option String :=
  jsOrS r.jwtHeader (jsOrS r.jwtCookie none)

/-- Character-by-character string equality as JS engines evaluate `===` on
same-reference-free strings: walk both strings, stop at the first mismatching
character.  This is the comparison used at
`providedToken === gatewayToken` in the bootstrap branch of the middleware. -/
def tokenEq : List Char → List Char → Bool
  | [], [] => true
  | [], _ :: _ => false
  | _ :: _, [] => false
  | a :: as, b :: bs => if a = b then tokenEq as bs else false

/-- Cost model for `tokenEq`: the number of character pairs inspected before
the comparison returns.  A mismatch at position `i` stops after `i + 1`
inspections (short-circuit). -/
def tokenEqSteps : List Char → List Char → Nat
  | [], _ => 0
  | _ :: _, [] => 0
  | a :: as, b :: bs => 1 + (if a = b then tokenEqSteps as bs else 0)

/-- Identity attached to an allowed request (`accessUser` in the source). -/
structure Identity where
  email : String
  name : String
deriving DecidableEq, Repr

/-- `AccessMiddlewareOptions.type`. -/
inductive RespType where
  | json
  | html
deriving DecidableEq, Repr, BEq

/-- `AccessMiddlewareOptions` from `src/auth/middleware.ts`. -/
structure MwOptions where
  type : RespType
  redirectOnMissing : Bool
deriving DecidableEq, Repr

/-- The observable outcome of one middleware invocation: either the protected
handler runs with an identity (`allow`), or the middleware short-circuits with
a JSON denial, an HTML denial (`hasTokenHint` records whether the page carries
the gateway-token hint text) or a redirect. -/
inductive MwOutcome where
  | allow (user : Identity)
  | denyJson (status : Nat) (error : String) (hint : Option String) (details : Option String)
  | denyHtml (status : Nat) (hasTokenHint : Bool)
  | redirect (location : String)
deriving DecidableEq, Repr

/-- HTTP status of an outcome (`none` when the protected handler runs). -/
def MwOutcome.status : MwOutcome → Option Nat
  | .allow _ => none
  | .denyJson s _ _ _ => some s
  | .denyHtml s _ => some s
  | .redirect _ => some 302

/-- Whether the outcome runs the protected handler. -/
def MwOutcome.isAllow : MwOutcome → Bool
  | .allow _ => true
  | _ => false

/-- Whether a denial carries a hint describing how to supply the token. -/
def MwOutcome.hasHint : MwOutcome → Bool
  | .denyJson _ _ (some _) _ => true
  | .denyHtml _ h => h
  | _ => false

/-- The 401 denial of the bootstrap branch: JSON body
`{error:'Unauthorized', hint:'Add ?token=... '}` or the HTML page carrying the
same gateway-token hint. -/
def bootstrapDeny (opts : MwOptions) : MwOutcome :=
  match opts.type with
  | .json => .denyJson 401 "Unauthorized"
      (some "Add ?token=YOUR_GATEWAY_TOKEN to the URL, or set up Cloudflare Access for production")
      none
  | .html => .denyHtml 401 true

/-- The 500 not-configured response: neither Cloudflare Access nor a gateway
token is configured. -/
def accessNotConfiguredResp (opts : MwOptions) : MwOutcome :=
  match opts.type with
  | .json => .denyJson 500 "Cloudflare Access not configured"
      (some "Set CF_ACCESS_TEAM_DOMAIN and CF_ACCESS_AUD, or ensure GATEWAY_TOKEN is set for bootstrap mode")
      none
  | .html => .denyHtml 500 false

/-- `createAccessMiddleware` from `src/auth/middleware.ts`, with JWT
verification abstracted as an oracle `verify` (the result of
`verifyAccessJWT`, `Except.error` when it throws). -/
def createAccessMiddleware (opts : MwOptions) (verify : String → Except String Identity)
    (env : Env) (r : Request) : MwOutcome :=
  if isDevMode env || isE2ETestMode env then
    .allow ⟨"dev@localhost", "Dev User"⟩
  else if !jsTruthy env.CF_ACCESS_TEAM_DOMAIN || !jsTruthy env.CF_ACCESS_AUD then
    if isBootstrapMode env then
      match extractGatewayToken r, getGatewayToken env with
      | some p, some g =>
        if (!(p == "")) && (!(g == "")) && tokenEq p.data g.data then
          .allow ⟨"bootstrap", "Setup (Gateway Token)"⟩
        else bootstrapDeny opts
      | _, _ => bootstrapDeny opts
    else accessNotConfiguredResp opts
  else
    match extractJWT r with
    | none =>
      if opts.type == RespType.html && opts.redirectOnMissing then
        .redirect ("https://" ++ (env.CF_ACCESS_TEAM_DOMAIN.getD ""))
      else match opts.type with
        | .json => .denyJson 401 "Unauthorized"
            (some "Missing Cloudflare Access JWT. Ensure this route is protected by Cloudflare Access.")
            none
        | .html => .denyHtml 401 false
    | some jwt =>
      match verify jwt with
      | .ok payload => .allow payload
      | .error e =>
        match opts.type with
        | .json => .denyJson 401 "Unauthorized" none (some e)
        | .html => .denyHtml 401 false

/-- A JWT verifier oracle that always fails (used to instantiate witnesses;
the claims below never reach the issuer branch). -/
def noVerify : String → Except String Identity :=
  fun _ => .error "JWT verification failed"

/-- An environment with every binding undefined. -/
def emptyEnv : Env :=
  ⟨none, none, none, none, none, none, none, none, none, none⟩

/-- A request with no token inputs at all. -/
def emptyReq : Request :=
  ⟨none, none, none, none⟩

/-- Observable result of one `sandbox.exec` call (`stdout`/`stderr` may be
undefined, `exitCode` may be undefined). -/
structure ExecResult where
  stdout : Option String
  stderr : Option String
  success : Bool
  exitCode : Option Int
deriving DecidableEq, Repr

/-- The normalized result `runRcloneWithFreshConfig` returns. -/
structure RcloneRunResult where
  stdout : String
  stderr : String
  success : Bool
  exitCode : Int
deriving DecidableEq, Repr

/-- One sandbox side effect performed by the sync engine, recorded in order. -/
inductive SandboxOp where
  | writeFile (path : String) (content : String)
  | exec (cmd : String)
deriving DecidableEq, Repr

/-- `RCLONE_TEMP_CONFIG` from `src/gateway/r2.ts`. -/
def RCLONE_TEMP_CONFIG : String := "/tmp/rclone-fresh.conf"

/-- The `safe` sanitizer of `buildRcloneConfigContent`:
`s.replace(/\r?\n/g, '').trim()`. -/
def safeVal (s : String) : String :=
  jsTrim ((s.replace "\r\n" "").replace "\n" "")

/-- `buildRcloneConfigContent` from `src/gateway/r2.ts`. -/
def buildRcloneConfigContent (accessKey secretKey accountId : String) : String :=
  String.intercalate "\n"
    [ "[r2]"
    , "type = s3"
    , "provider = Cloudflare"
    , "access_key_id = " ++ safeVal accessKey
    , "secret_access_key = " ++ safeVal secretKey
    , "endpoint = https://" ++ safeVal accountId ++ ".r2.cloudflarestorage.com"
    , "acl = private"
    , "no_check_bucket = true" ]

/-- Normalization `runRcloneWithFreshConfig` applies to the raw exec result:
`stdout || ''`, `stderr || ''`, `exitCode ?? (success ? 0 : 1)`. -/
def normalizeExec (e : ExecResult) : RcloneRunResult :=
  { stdout := e.stdout.getD ""
  , stderr := e.stderr.getD ""
  , success := e.success
  , exitCode := e.exitCode.getD (if e.success then 0 else 1) }

/-- `runRcloneWithFreshConfig` from `src/gateway/r2.ts`, with the single
`sandbox.exec` of the rclone command abstracted by `execRes` and the sandbox
side effects returned as an ordered trace. -/
def runRcloneWithFreshConfig (env : Env) (command : String) (execRes : ExecResult) :
    RcloneRunResult × List SandboxOp :=
  let accessKey := (env.R2_ACCESS_KEY_ID.map jsTrim).getD ""
  let secretKey := (env.R2_SECRET_ACCESS_KEY.map jsTrim).getD ""
  let accountId := (env.CF_ACCOUNT_ID.map jsTrim).getD ""
  if accessKey == "" || secretKey == "" || accountId == "" then
    ({ stdout := "", stderr := "R2 not configured", success := false, exitCode := 1 }, [])
  else
    let configContent := buildRcloneConfigContent accessKey secretKey accountId
    ( normalizeExec execRes
    , [ .writeFile RCLONE_TEMP_CONFIG configContent
      , .exec ("rclone " ++ command ++ " --config " ++ RCLONE_TEMP_CONFIG ++ " 2>&1 || true")
      , .exec ("rm -f " ++ RCLONE_TEMP_CONFIG) ] )

/-- Whether the temp credential file exists after executing a trace of sandbox
operations, starting from existence state `present`: writing
`RCLONE_TEMP_CONFIG` creates it, `rm -f RCLONE_TEMP_CONFIG` removes it. -/
def credFileAfter (present : Bool) : List SandboxOp → Bool
  | [] => present
  | .writeFile p _ :: rest =>
      credFileAfter (if p == RCLONE_TEMP_CONFIG then true else present) rest
  | .exec c :: rest =>
      credFileAfter (if c == "rm -f " ++ RCLONE_TEMP_CONFIG then false else present) rest

/-- `SyncResult` from `src/gateway/sync.ts`. -/
structure SyncResult where
  success : Bool
  lastSync : Option String
  error : Option String
  details : Option String
deriving DecidableEq, Repr

/-- `RCLONE_FLAGS` from `src/gateway/sync.ts`. -/
def RCLONE_FLAGS : String := "--transfers=16 --fast-list --s3-no-check-bucket"

/-- `rcloneRemote` from `src/gateway/sync.ts`. -/
def rcloneRemote (env : Env) (pfx : String) : String :=
  "r2:" ++ getR2BucketName env ++ "/" ++ pfx

/-- `hasR2Config` from `src/gateway/sync.ts`: all three secrets defined and
non-empty after trimming. -/
def hasR2Config (env : Env) : Bool :=
  jsTruthy (env.R2_ACCESS_KEY_ID.map jsTrim) &&
  jsTruthy (env.R2_SECRET_ACCESS_KEY.map jsTrim) &&
  jsTruthy (env.CF_ACCOUNT_ID.map jsTrim)

/-- `detectConfigDir` from `src/gateway/sync.ts`, over the stdout of the
detection exec: `check.stdout?.trim()` compared to `openclaw` / `clawdbot`. -/
def detectConfigDir (stdout : Option String) : Option String :=
  match stdout.map jsTrim with
  | some s =>
      if s == "openclaw" then some "/root/.openclaw"
      else if s == "clawdbot" then some "/root/.clawdbot"
      else none
  | none => none

/-- JS `String.prototype.slice(-n)`: the last `n` characters (the whole string
when shorter than `n`). -/
def sliceLast (n : Nat) (s : String) : String :=
  String.mk (s.data.drop (s.data.length - n))

/-- `[a, b].filter(Boolean).join(sep)`: drop empty strings, then join. -/
def joinNonEmpty (sep : String) (parts : List String) : String :=
  String.intercalate sep (parts.filter (fun s => !(s == "")))

/-- The fatal result built when the config-directory sync fails:
`details` is the combined stderr/stdout tail-truncated to 2000 characters,
or the fallback message when that output is empty. -/
def configSyncFailure (res : RcloneRunResult) : SyncResult :=
  let errOut := sliceLast 2000 (joinNonEmpty "\n---\n" [res.stderr, res.stdout])
  { success := false
  , lastSync := none
  , error := some "Config sync failed"
  , details := some (if errOut == ""
      then "No error output from rclone (exit code may indicate failure)" else errOut) }

/-- Oracle for one `syncToR2` run: the observable result of each sandbox call
it makes, in source order. -/
structure SyncWorld where
  detectStdout : Option String
  configSync : ExecResult
  hasWorkspaceStdout : Option String
  workspaceSync : ExecResult
  hasSkillsStdout : Option String
  skillsSync : ExecResult
  catLastSyncStdout : Option String
deriving Repr

/-- `syncToR2` from `src/gateway/sync.ts`: config check, config-dir detection,
fatal config sync, opportunistic (result-discarding) workspace and skills
syncs, then the timestamp marker write/read-back. -/
def syncToR2 (env : Env) (w : SyncWorld) : SyncResult :=
  if !hasR2Config env then
    { success := false, lastSync := none
    , error := some "R2 storage is not configured", details := none }
  else
    match detectConfigDir w.detectStdout with
    | none =>
      { success := false, lastSync := none
      , error := some "Sync aborted: no config file found"
      , details := some "Neither openclaw.json nor clawdbot.json found in config directory." }
    | some configDir =>
      let configResult := (runRcloneWithFreshConfig env
        ("sync " ++ configDir ++ "/ " ++ rcloneRemote env "openclaw/" ++ " " ++ RCLONE_FLAGS ++
          " --exclude='*.lock' --exclude='*.log' --exclude='*.tmp' --exclude='.git/**'")
        w.configSync).1
      if !configResult.success then
        configSyncFailure configResult
      else
        let _wsRes :=
          if (w.hasWorkspaceStdout.map jsTrim) = some "yes" then
            some (runRcloneWithFreshConfig env
              ("sync /root/clawd/ " ++ rcloneRemote env "workspace/" ++ " " ++ RCLONE_FLAGS ++
                " --exclude='skills/**' --exclude='.git/**'")
              w.workspaceSync).1
          else none
        let _skRes :=
          if (w.hasSkillsStdout.map jsTrim) = some "yes" then
            some (runRcloneWithFreshConfig env
              ("sync /root/clawd/skills/ " ++ rcloneRemote env "skills/" ++ " " ++ RCLONE_FLAGS)
              w.skillsSync).1
          else none
        { success := true, lastSync := w.catLastSyncStdout.map jsTrim
        , error := none, details := none }

/-- Oracle for the `/storage/test` probe: the observable results of the first
and (if reached) second rclone invocation. -/
structure StorageTestWorld where
  firstAttempt : ExecResult
  secondAttempt : ExecResult
deriving Repr

/-- Response of the `/storage/test` handler, reduced to the fields the claims
are about. -/
inductive StorageTestResp where
  | notConfigured (missing : List String)
  | probed (ok : Bool) (bucket : String) (stdout : String) (stderr : String) (exitCode : Int)
deriving DecidableEq, Repr

/-- The `GET /api/admin/storage/test` handler from `src/routes/api.ts`:
missing-secret check on the raw (untrimmed) bindings, then an rclone `size`
probe that is retried exactly once when the first call fails.  The second
component counts the `runRcloneWithFreshConfig` invocations performed. -/
def storageTestHandler (env : Env) (w : StorageTestWorld) : StorageTestResp × Nat :=
  if !jsTruthy env.R2_ACCESS_KEY_ID || !jsTruthy env.R2_SECRET_ACCESS_KEY ||
      !jsTruthy env.CF_ACCOUNT_ID then
    ( .notConfigured
        ((if jsTruthy env.R2_ACCESS_KEY_ID then [] else ["R2_ACCESS_KEY_ID"]) ++
         (if jsTruthy env.R2_SECRET_ACCESS_KEY then [] else ["R2_SECRET_ACCESS_KEY"]) ++
         (if jsTruthy env.CF_ACCOUNT_ID then [] else ["CF_ACCOUNT_ID"]))
    , 0 )
  else
    let bucket := getR2BucketName env
    let r1 := (runRcloneWithFreshConfig env ("size r2:" ++ bucket ++ "/") w.firstAttempt).1
    if !r1.success then
      let r2 := (runRcloneWithFreshConfig env ("size r2:" ++ bucket ++ "/") w.secondAttempt).1
      (.probed r2.success bucket r2.stdout r2.stderr r2.exitCode, 2)
    else
      (.probed r1.success bucket r1.stdout r1.stderr r1.exitCode, 1)

/-- `needle` occurs as a contiguous substring of `hay` (JS
`String.prototype.includes`; the empty needle is always found). -/
def hasSubstring (needle : List Char) : List Char → Bool
  | [] => needle.isEmpty
  | c :: t => needle.isPrefixOf (c :: t) || hasSubstring needle t

/-- What the world does for one `openclaw devices approve` call inside the
approve-all loop: the process completes with observable logs and exit code, or
one of the awaited calls throws. -/
inductive DeviceCallResult where
  | completed (stdout : Option String) (stderr : Option String) (exitCode : Option Int)
  | threw (msg : String)
deriving Repr

/-- One entry pushed onto `results` in the approve-all loop. -/
structure ApprovalOutcome where
  requestId : String
  success : Bool
  error : Option String
deriving DecidableEq, Repr

/-- The loop body of `POST /devices/approve-all` from `src/routes/api.ts`,
applied sequentially to the (index, requestId) pairs of the pending list:
success is `stdout?.toLowerCase().includes('approved') || exitCode === 0`, and
a thrown call is caught and recorded as a failed outcome. -/
def approveAllLoop (calls : Nat → DeviceCallResult) : List (Nat × String) → List ApprovalOutcome
  | [] => []
  | (i, reqId) :: rest =>
    (match calls i with
      | .completed stdout _ exitCode =>
        { requestId := reqId
        , success := (stdout.map (fun s => hasSubstring "approved".data s.toLower.data)).getD false
            || exitCode == some 0
        , error := none }
      | .threw msg => { requestId := reqId, success := false, error := some msg })
      :: approveAllLoop calls rest

/-- Response of `POST /devices/approve-all` (`failed` is absent — `none` — on
the nothing-pending early return). -/
structure ApproveAllResult where
  approved : List String
  failed : Option (List ApprovalOutcome)
  message : String
deriving DecidableEq, Repr

/-- The `POST /api/admin/devices/approve-all` handler from
`src/routes/api.ts`, after the pending list has been parsed from the single
initial `devices list` call: early return when nothing is pending, otherwise
the sequential approval loop with its outcomes split into `approved` and
`failed`. -/
def approveAll (pending : List String) (calls : Nat → DeviceCallResult) : ApproveAllResult :=
  if pending.length = 0 then
    { approved := [], failed := none, message := "No pending devices to approve" }
  else
    let results := approveAllLoop calls pending.enum
    { approved := (results.filter (fun r => r.success)).map (fun r => r.requestId)
    , failed := some (results.filter (fun r => !r.success))
    , message := "Approved " ++ toString (results.filter (fun r => r.success)).length ++
        " of " ++ toString pending.length ++ " device(s)" }


theorem tokenEq_eq_decide (as bs : List Char) : tokenEq as bs = decide (as = bs) := by
  induction as generalizing bs with
  | nil => cases bs <;> simp [tokenEq]
  | cons a as ih =>
    cases bs with
    | nil => simp [tokenEq]
    | cons b bs =>
      by_cases hab : a = b
      · subst hab
        simp [tokenEq, ih]
      · simp [tokenEq, hab]

theorem tokenEq_true_iff (as bs : List Char) : tokenEq as bs = true ↔ as = bs := by
  simp [tokenEq_eq_decide]

theorem jsOrS_some {a b : Option String} {p : String} (h : jsOrS a b = some p) : p ≠ "" ∨ b = some p := by
  match a with
  | none => exact Or.inr h
  | some s =>
    simp only [jsOrS] at h
    by_cases hs : s == ""
    · simp [hs] at h
      exact Or.inr h
    · simp [hs] at h
      subst h
      exact Or.inl (by simpa using hs)

theorem extractGatewayToken_ne_empty {r : Request} {p : String}
    (h : extractGatewayToken r = some p) : p ≠ "" := by
  unfold extractGatewayToken at h
  rcases jsOrS_some h with hp | hb
  · exact hp
  · rcases jsOrS_some hb with hp | hn
    · exact hp
    · simp at hn

theorem jsTruthy_map_trim {o : Option String} (h : jsTruthy (o.map jsTrim) = true) :
    (o.map jsTrim).getD "" ≠ "" := by
  match o with
  | none => simp [jsTruthy] at h
  | some s =>
    simp only [Option.map_some, jsTruthy, Bool.not_eq_true'] at h
    simpa using h

theorem hasR2Config_fields {env : Env} (h : hasR2Config env = true) :
    (env.R2_ACCESS_KEY_ID.map jsTrim).getD "" ≠ "" ∧
    (env.R2_SECRET_ACCESS_KEY.map jsTrim).getD "" ≠ "" ∧
    (env.CF_ACCOUNT_ID.map jsTrim).getD "" ≠ "" := by
  simp only [hasR2Config, Bool.and_eq_true] at h
  exact ⟨jsTruthy_map_trim h.1.1, jsTruthy_map_trim h.1.2, jsTruthy_map_trim h.2⟩

theorem runRclone_configured (env : Env) (command : String) (execRes : ExecResult)
    (h1 : (env.R2_ACCESS_KEY_ID.map jsTrim).getD "" ≠ "")
    (h2 : (env.R2_SECRET_ACCESS_KEY.map jsTrim).getD "" ≠ "")
    (h3 : (env.CF_ACCOUNT_ID.map jsTrim).getD "" ≠ "") :
    runRcloneWithFreshConfig env command execRes =
      ( normalizeExec execRes
      , [ .writeFile RCLONE_TEMP_CONFIG
            (buildRcloneConfigContent
              ((env.R2_ACCESS_KEY_ID.map jsTrim).getD "")
              ((env.R2_SECRET_ACCESS_KEY.map jsTrim).getD "")
              ((env.CF_ACCOUNT_ID.map jsTrim).getD ""))
        , .exec ("rclone " ++ command ++ " --config " ++ RCLONE_TEMP_CONFIG ++ " 2>&1 || true")
        , .exec ("rm -f " ++ RCLONE_TEMP_CONFIG) ] ) := by
  unfold runRcloneWithFreshConfig
  simp [h1, h2, h3]

theorem length_filter_add_length_filter_not {α : Type} (p : α → Bool) (l : List α) :
    (l.filter p).length + (l.filter (fun a => !p a)).length = l.length := by
  induction l with
  | nil => rfl
  | cons a t ih =>
    cases hp : p a <;> simp [List.filter, hp] <;> omega

theorem approveAllLoop_length (calls : Nat → DeviceCallResult) (l : List (Nat × String)) :
    (approveAllLoop calls l).length = l.length := by
  induction l with
  | nil => rfl
  | cons x t ih =>
    obtain ⟨i, r⟩ := x
    cases calls i <;> simp [approveAllLoop, ih]

theorem approveAllLoop_requestIds (calls : Nat → DeviceCallResult) (l : List (Nat × String)) :
    (approveAllLoop calls l).map (fun r => r.requestId) = l.map (fun x => x.2) := by
  induction l with
  | nil => rfl
  | cons x t ih =>
    obtain ⟨i, r⟩ := x
    cases h : calls i <;> simp [approveAllLoop, h, ih]

theorem enumFrom_map_snd {α : Type} (n : Nat) (l : List α) :
    (List.enumFrom n l).map (fun x => x.2) = l := by
  induction l generalizing n with
  | nil => rfl
  | cons a t ih => simp [List.enumFrom, ih]

theorem enum_map_snd' {α : Type} (l : List α) : l.enum.map (fun x => x.2) = l :=
  enumFrom_map_snd 0 l

theorem sliceLast_length_le (n : Nat) (s : String) : (sliceLast n s).length ≤ n := by
  show (String.mk (s.data.drop (s.data.length - n))).length ≤ n
  have : (String.mk (s.data.drop (s.data.length - n))).length =
      (s.data.drop (s.data.length - n)).length := rfl
  rw [this, List.length_drop]
  omega

theorem raw_truthy_of_trim {o : Option String} (h : (o.map jsTrim).getD "" ≠ "") :
    jsTruthy o = true := by
  match o with
  | none => exact absurd rfl h
  | some s =>
    by_cases hs : s = ""
    · subst hs
      exact absurd (by decide) h
    · simp [jsTruthy, hs]

/-- The bootstrap branch of the middleware as a single equation: dev and E2E
modes off, Cloudflare Access unconfigured, gateway token configured as `g`. -/
theorem bootstrap_outcome (opts : MwOptions) (verify : String → Except String Identity)
    (env : Env) (r : Request) (g : String)
    (hdev : isDevMode env = false) (he2e : isE2ETestMode env = false)
    (hacc : (jsTruthy env.CF_ACCESS_TEAM_DOMAIN && jsTruthy env.CF_ACCESS_AUD) = false)
    (hsec : getGatewayToken env = some g) (hg : g ≠ "") :
    createAccessMiddleware opts verify env r =
      if extractGatewayToken r = some g then
        MwOutcome.allow ⟨"bootstrap", "Setup (Gateway Token)"⟩
      else bootstrapDeny opts := by
  have hgt : jsTruthy (getGatewayToken env) = true := by
    rw [hsec]
    simpa [jsTruthy] using hg
  have hboot : isBootstrapMode env = true := by
    simp [isBootstrapMode, hacc, hgt]
  have hor : (!jsTruthy env.CF_ACCESS_TEAM_DOMAIN || !jsTruthy env.CF_ACCESS_AUD) = true := by
    rw [← Bool.not_and, hacc]
    rfl
  unfold createAccessMiddleware
  rw [hdev, he2e]
  simp only [Bool.or_self, Bool.false_eq_true, if_false, hor, if_true, hboot, hsec]
  cases hx : extractGatewayToken r with
  | none => simp
  | some p =>
    have hp : p ≠ "" := extractGatewayToken_ne_empty hx
    by_cases hpg : p = g
    · subst hpg
      simp [tokenEq_eq_decide, hp]
    · have hd : p.data ≠ g.data := fun hh => hpg (String.ext hh)
      simp [tokenEq_eq_decide, hd, hpg]

/-- C6: when the dev-mode flag or the E2E-test-mode flag is set, the access
middleware allows the request with identity email `dev@localhost` and name
`Dev User`, regardless of any other configuration, headers or supplied
tokens. -/
theorem C6_dev_mode_bypass (opts : MwOptions) (verify : String → Except String Identity)
    (env : Env) (r : Request)
    (h : (isDevMode env || isE2ETestMode env) = true) :
    createAccessMiddleware opts verify env r = .allow ⟨"dev@localhost", "Dev User"⟩ := by
  simp [createAccessMiddleware, h]

/-- C6 witness: a dev-mode environment that also has Cloudflare Access and a
gateway token configured, and a request carrying a wrong token, is still
allowed as the dev user. -/
theorem C6_dev_mode_bypass_witness :
    (isDevMode ⟨none, none, none, none, some "team", some "aud", some "g", none, some "true", none⟩ ||
      isE2ETestMode
        ⟨none, none, none, none, some "team", some "aud", some "g", none, some "true", none⟩) = true ∧
    createAccessMiddleware ⟨RespType.json, false⟩ noVerify
      ⟨none, none, none, none, some "team", some "aud", some "g", none, some "true", none⟩
      ⟨some "wrong", none, none, none⟩ = .allow ⟨"dev@localhost", "Dev User"⟩ :=
  ⟨by decide, C6_dev_mode_bypass ⟨RespType.json, false⟩ noVerify _ _ (by decide)⟩

/-- C4: with dev and E2E modes off, team domain and audience unconfigured, and
no bootstrap shared secret configured, the middleware returns the
configuration-error denial with status 500 — never a 401 — and never runs the
protected handler. -/
theorem C4_fails_closed (opts : MwOptions) (verify : String → Except String Identity)
    (env : Env) (r : Request)
    (hdev : isDevMode env = false) (he2e : isE2ETestMode env = false)
    (htd : jsTruthy env.CF_ACCESS_TEAM_DOMAIN = false)
    (haud : jsTruthy env.CF_ACCESS_AUD = false)
    (hsec : jsTruthy (getGatewayToken env) = false) :
    createAccessMiddleware opts verify env r = accessNotConfiguredResp opts ∧
    (accessNotConfiguredResp opts).status = some 500 ∧
    (accessNotConfiguredResp opts).status ≠ some 401 ∧
    (accessNotConfiguredResp opts).isAllow = false := by
  have hb : isBootstrapMode env = false := by
    simp [isBootstrapMode, hsec]
  refine ⟨?_, ?_, ?_, ?_⟩
  · simp [createAccessMiddleware, hdev, he2e, htd, haud, hb]
  · cases h : opts.type <;> simp [accessNotConfiguredResp, MwOutcome.status, h]
  · cases h : opts.type <;> simp [accessNotConfiguredResp, MwOutcome.status, h]
  · cases h : opts.type <;> simp [accessNotConfiguredResp, MwOutcome.isAllow, h]

/-- C4 witness: the all-undefined environment yields the 500 configuration
denial on a JSON route. -/
theorem C4_fails_closed_witness :
    (isDevMode emptyEnv = false ∧ isE2ETestMode emptyEnv = false ∧
      jsTruthy emptyEnv.CF_ACCESS_TEAM_DOMAIN = false ∧
      jsTruthy emptyEnv.CF_ACCESS_AUD = false ∧
      jsTruthy (getGatewayToken emptyEnv) = false) ∧
    (createAccessMiddleware ⟨RespType.json, false⟩ noVerify emptyEnv emptyReq =
        accessNotConfiguredResp ⟨RespType.json, false⟩ ∧
      (accessNotConfiguredResp ⟨RespType.json, false⟩).status = some 500 ∧
      (accessNotConfiguredResp ⟨RespType.json, false⟩).status ≠ some 401 ∧
      (accessNotConfiguredResp ⟨RespType.json, false⟩).isAllow = false) :=
  ⟨⟨rfl, rfl, rfl, rfl, rfl⟩, C4_fails_closed ⟨RespType.json, false⟩ noVerify emptyEnv emptyReq
    rfl rfl rfl rfl rfl⟩

/-- C8: approve-all yields one outcome per pending request in order (the loop
is never aborted by a per-device failure or thrown call), and the result
satisfies `approved.length + failed.length = N`, reading the `failed` field
that the nothing-pending early return omits as empty. -/
theorem C8_approve_all_partition (pending : List String) (calls : Nat → DeviceCallResult) :
    (approveAll pending calls).approved.length +
      ((approveAll pending calls).failed.getD []).length = pending.length ∧
    (approveAllLoop calls pending.enum).map (fun r => r.requestId) = pending := by
  constructor
  · unfold approveAll
    by_cases hp : pending.length = 0
    · simp [hp]
    · rw [if_neg hp]
      simp only [Option.getD_some, List.length_map]
      rw [length_filter_add_length_filter_not (fun r => r.success)
        (approveAllLoop calls pending.enum)]
      rw [approveAllLoop_length]
      exact List.enum_length
  · rw [approveAllLoop_requestIds]
    exact enum_map_snd' pending

/-- A bootstrap-mode environment: no Cloudflare Access configured, gateway
token `s3cret`, dev and E2E modes off. -/
def bootEnv : Env := ⟨none, none, none, none, none, none, some "s3cret", none, none, none⟩

/-- C5: in bootstrap mode (dev/E2E off, issuer unconfigured, non-empty secret
`g` configured), a request whose extracted token equals `g` is allowed with
the bootstrap identity, and any other supplied value, an empty token (which
the extractor never yields) or a missing token is denied with a 401
Unauthorized response carrying a hint describing how to supply the token. -/
theorem C5_bootstrap_token (opts : MwOptions) (verify : String → Except String Identity)
    (env : Env) (r : Request) (g : String)
    (hdev : isDevMode env = false) (he2e : isE2ETestMode env = false)
    (hacc : (jsTruthy env.CF_ACCESS_TEAM_DOMAIN && jsTruthy env.CF_ACCESS_AUD) = false)
    (hsec : getGatewayToken env = some g) (hg : g ≠ "") :
    createAccessMiddleware opts verify env r =
      (if extractGatewayToken r = some g then
        MwOutcome.allow ⟨"bootstrap", "Setup (Gateway Token)"⟩
       else bootstrapDeny opts) ∧
    (bootstrapDeny opts).status = some 401 ∧
    (bootstrapDeny opts).hasHint = true ∧
    (bootstrapDeny opts).isAllow = false := by
  refine ⟨bootstrap_outcome opts verify env r g hdev he2e hacc hsec hg, ?_, ?_, ?_⟩
  · cases h : opts.type <;> simp [bootstrapDeny, MwOutcome.status, h]
  · cases h : opts.type <;> simp [bootstrapDeny, MwOutcome.hasHint, h]
  · cases h : opts.type <;> simp [bootstrapDeny, MwOutcome.isAllow, h]

/-- C5 witness: with secret `s3cret`, the request `?token=s3cret` is allowed
as the bootstrap identity on a JSON route. -/
theorem C5_bootstrap_token_witness :
    (isDevMode bootEnv = false ∧ isE2ETestMode bootEnv = false ∧
      (jsTruthy bootEnv.CF_ACCESS_TEAM_DOMAIN && jsTruthy bootEnv.CF_ACCESS_AUD) = false ∧
      getGatewayToken bootEnv = some "s3cret" ∧ "s3cret" ≠ "") ∧
    (createAccessMiddleware ⟨RespType.json, false⟩ noVerify bootEnv
        ⟨some "s3cret", none, none, none⟩ =
      (if extractGatewayToken ⟨some "s3cret", none, none, none⟩ = some "s3cret" then
        MwOutcome.allow ⟨"bootstrap", "Setup (Gateway Token)"⟩
       else bootstrapDeny ⟨RespType.json, false⟩) ∧
      (bootstrapDeny ⟨RespType.json, false⟩).status = some 401 ∧
      (bootstrapDeny ⟨RespType.json, false⟩).hasHint = true ∧
      (bootstrapDeny ⟨RespType.json, false⟩).isAllow = false) :=
  ⟨⟨rfl, rfl, rfl, rfl, by decide⟩,
   C5_bootstrap_token ⟨RespType.json, false⟩ noVerify bootEnv ⟨some "s3cret", none, none, none⟩
     "s3cret" rfl rfl rfl rfl (by decide)⟩

/-- C10: a `token` query parameter present with an empty value never shadows
the `X-Gateway-Token` header: extraction falls back to the header, so in
bootstrap mode such a request is allowed exactly when the header equals the
secret, and with neither a non-empty query token nor a header token the
extraction yields `null` and the request is denied. -/
theorem C10_empty_query_falls_back (opts : MwOptions) (verify : String → Except String Identity)
    (env : Env) (r : Request) (g : String)
    (hdev : isDevMode env = false) (he2e : isE2ETestMode env = false)
    (hacc : (jsTruthy env.CF_ACCESS_TEAM_DOMAIN && jsTruthy env.CF_ACCESS_AUD) = false)
    (hsec : getGatewayToken env = some g) (hg : g ≠ "")
    (hq : r.queryToken = some "") :
    extractGatewayToken r = jsOrS r.headerGatewayToken none ∧
    createAccessMiddleware opts verify env r =
      (if r.headerGatewayToken = some g then
        MwOutcome.allow ⟨"bootstrap", "Setup (Gateway Token)"⟩
       else bootstrapDeny opts) ∧
    extractGatewayToken ⟨some "", none, none, none⟩ = none := by
  have hx : extractGatewayToken r = jsOrS r.headerGatewayToken none := by
    simp [extractGatewayToken, hq, jsOrS]
  refine ⟨hx, ?_, by decide⟩
  rw [bootstrap_outcome opts verify env r g hdev he2e hacc hsec hg, hx]
  cases hh : r.headerGatewayToken with
  | none => simp [jsOrS]
  | some hdr =>
    by_cases hhe : hdr = ""
    · subst hhe
      simp [jsOrS, Ne.symm hg]
    · by_cases hdg : hdr = g
      · subst hdg
        simp [jsOrS, hhe]
      · simp [jsOrS, hhe, hdg]

/-- C10 witness: `?token=` (empty) with header `X-Gateway-Token: s3cret` is
allowed; `?token=` with no header extracts `null`. -/
theorem C10_empty_query_falls_back_witness :
    (isDevMode bootEnv = false ∧ isE2ETestMode bootEnv = false ∧
      (jsTruthy bootEnv.CF_ACCESS_TEAM_DOMAIN && jsTruthy bootEnv.CF_ACCESS_AUD) = false ∧
      getGatewayToken bootEnv = some "s3cret" ∧ "s3cret" ≠ "" ∧
      (⟨some "", some "s3cret", none, none⟩ : Request).queryToken = some "") ∧
    (extractGatewayToken ⟨some "", some "s3cret", none, none⟩ =
        jsOrS (⟨some "", some "s3cret", none, none⟩ : Request).headerGatewayToken none ∧
      createAccessMiddleware ⟨RespType.json, false⟩ noVerify bootEnv
          ⟨some "", some "s3cret", none, none⟩ =
        (if (⟨some "", some "s3cret", none, none⟩ : Request).headerGatewayToken = some "s3cret" then
          MwOutcome.allow ⟨"bootstrap", "Setup (Gateway Token)"⟩
         else bootstrapDeny ⟨RespType.json, false⟩) ∧
      extractGatewayToken ⟨some "", none, none, none⟩ = none) :=
  ⟨⟨rfl, rfl, rfl, rfl, by decide, rfl⟩,
   C10_empty_query_falls_back ⟨RespType.json, false⟩ noVerify bootEnv
     ⟨some "", some "s3cret", none, none⟩ "s3cret" rfl rfl rfl rfl (by decide) rfl⟩

/-- C7 counterexample: in bootstrap mode with secret `s3cret`, two requests
carrying the same empty-valued `token` query parameter but different
`X-Gateway-Token` headers — each header value different from the query value —
receive different outcomes: the header determines the result, so the query
parameter's value does not, and the header is not ignored. -/
theorem C7_counterexample :
    createAccessMiddleware ⟨RespType.json, false⟩ noVerify bootEnv
        ⟨some "", some "s3cret", none, none⟩ =
      MwOutcome.allow ⟨"bootstrap", "Setup (Gateway Token)"⟩ ∧
    createAccessMiddleware ⟨RespType.json, false⟩ noVerify bootEnv
        ⟨some "", some "other", none, none⟩ = bootstrapDeny ⟨RespType.json, false⟩ ∧
    ("" : String) ≠ "s3cret" ∧ ("" : String) ≠ "other" := by
  decide

/-- C7 (amended): for every request that supplies a non-empty `token` query
parameter, the authorization outcome is independent of the `X-Gateway-Token`
header — the query parameter's value alone determines the outcome.  (An
empty-valued query parameter instead falls back to the header.) -/
theorem C7_amended_query_precedence (opts : MwOptions)
    (verify : String → Except String Identity) (env : Env) (r : Request) (q : String)
    (hOther : Option String) (hq : r.queryToken = some q) (hne : q ≠ "") :
    createAccessMiddleware opts verify env r =
      createAccessMiddleware opts verify env ⟨r.queryToken, hOther, r.jwtHeader, r.jwtCookie⟩ := by
  have h1 : extractGatewayToken r = some q := by
    simp [extractGatewayToken, hq, jsOrS, hne]
  have h2 : extractGatewayToken ⟨r.queryToken, hOther, r.jwtHeader, r.jwtCookie⟩ = some q := by
    simp [extractGatewayToken, hq, jsOrS, hne]
  have h3 : extractJWT ⟨r.queryToken, hOther, r.jwtHeader, r.jwtCookie⟩ = extractJWT r := rfl
  unfold createAccessMiddleware
  rw [h1, h2, h3]

/-- C7 amended witness: with a non-empty query token equal to the secret, the
outcome is the same whatever the header carries. -/
theorem C7_amended_query_precedence_witness :
    ((⟨some "s3cret", some "other", none, none⟩ : Request).queryToken = some "s3cret" ∧
      "s3cret" ≠ "") ∧
    createAccessMiddleware ⟨RespType.json, false⟩ noVerify bootEnv
        ⟨some "s3cret", some "other", none, none⟩ =
      createAccessMiddleware ⟨RespType.json, false⟩ noVerify bootEnv
        ⟨some "s3cret", some "ignored", none, none⟩ :=
  ⟨⟨rfl, by decide⟩,
   C7_amended_query_precedence ⟨RespType.json, false⟩ noVerify bootEnv
     ⟨some "s3cret", some "other", none, none⟩ "s3cret" (some "ignored") rfl (by decide)⟩

/-- An environment with the three R2 secrets configured. -/
def r2Env : Env := ⟨some "AK", some "SK", some "ACC", none, none, none, none, none, none, none⟩

/-- C2: with the three R2 secrets non-empty after trimming,
`runRcloneWithFreshConfig` performs exactly write-credential-file, run
transfer command, delete credential file — in that order, for every transfer
result including failure — so the freshly built credential file exists just
before the transfer command runs and no longer exists when the function
returns. -/
theorem C2_fresh_credential_lifecycle (env : Env) (command : String) (execRes : ExecResult)
    (h1 : (env.R2_ACCESS_KEY_ID.map jsTrim).getD "" ≠ "")
    (h2 : (env.R2_SECRET_ACCESS_KEY.map jsTrim).getD "" ≠ "")
    (h3 : (env.CF_ACCOUNT_ID.map jsTrim).getD "" ≠ "") :
    (runRcloneWithFreshConfig env command execRes).2 =
      [ SandboxOp.writeFile RCLONE_TEMP_CONFIG
          (buildRcloneConfigContent ((env.R2_ACCESS_KEY_ID.map jsTrim).getD "")
            ((env.R2_SECRET_ACCESS_KEY.map jsTrim).getD "")
            ((env.CF_ACCOUNT_ID.map jsTrim).getD ""))
      , SandboxOp.exec ("rclone " ++ command ++ " --config " ++ RCLONE_TEMP_CONFIG ++ " 2>&1 || true")
      , SandboxOp.exec ("rm -f " ++ RCLONE_TEMP_CONFIG) ] ∧
    credFileAfter false ((runRcloneWithFreshConfig env command execRes).2.take 1) = true ∧
    credFileAfter false (runRcloneWithFreshConfig env command execRes).2 = false := by
  have h := runRclone_configured env command execRes h1 h2 h3
  rw [h]
  exact ⟨rfl, by simp [credFileAfter], by simp [credFileAfter]⟩

/-- C2 witness: concrete secrets with a failing transfer command still produce
the write-exec-delete trace and the credential file is gone at return. -/
theorem C2_fresh_credential_lifecycle_witness :
    ((r2Env.R2_ACCESS_KEY_ID.map jsTrim).getD "" ≠ "" ∧
      (r2Env.R2_SECRET_ACCESS_KEY.map jsTrim).getD "" ≠ "" ∧
      (r2Env.CF_ACCOUNT_ID.map jsTrim).getD "" ≠ "") ∧
    ((runRcloneWithFreshConfig r2Env "size r2:clawworker-data/" ⟨none, some "boom", false, some 1⟩).2 =
      [ SandboxOp.writeFile RCLONE_TEMP_CONFIG
          (buildRcloneConfigContent ((r2Env.R2_ACCESS_KEY_ID.map jsTrim).getD "")
            ((r2Env.R2_SECRET_ACCESS_KEY.map jsTrim).getD "")
            ((r2Env.CF_ACCOUNT_ID.map jsTrim).getD ""))
      , SandboxOp.exec ("rclone " ++ "size r2:clawworker-data/" ++ " --config " ++
          RCLONE_TEMP_CONFIG ++ " 2>&1 || true")
      , SandboxOp.exec ("rm -f " ++ RCLONE_TEMP_CONFIG) ] ∧
    credFileAfter false
      ((runRcloneWithFreshConfig r2Env "size r2:clawworker-data/"
        ⟨none, some "boom", false, some 1⟩).2.take 1) = true ∧
    credFileAfter false
      (runRcloneWithFreshConfig r2Env "size r2:clawworker-data/"
        ⟨none, some "boom", false, some 1⟩).2 = false) :=
  ⟨⟨by decide, by decide, by decide⟩,
   C2_fresh_credential_lifecycle r2Env "size r2:clawworker-data/"
     ⟨none, some "boom", false, some 1⟩ (by decide) (by decide) (by decide)⟩

/-- C9: with the three R2 secrets configured, the storage connectivity probe
calls the transfer tool once and returns that result when the first call
succeeds (no retry); when the first call fails it retries exactly once and
returns the second result as-is, with no third attempt. -/
theorem C9_probe_retry_once (env : Env) (w : StorageTestWorld)
    (hcfg : hasR2Config env = true) :
    (storageTestHandler env w).2 = (if w.firstAttempt.success then 1 else 2) ∧
    (storageTestHandler env w).1 =
      (if w.firstAttempt.success then
        StorageTestResp.probed true (getR2BucketName env) (w.firstAttempt.stdout.getD "")
          (w.firstAttempt.stderr.getD "") (w.firstAttempt.exitCode.getD 0)
       else
        StorageTestResp.probed w.secondAttempt.success (getR2BucketName env)
          (w.secondAttempt.stdout.getD "") (w.secondAttempt.stderr.getD "")
          (w.secondAttempt.exitCode.getD (if w.secondAttempt.success then 0 else 1))) := by
  obtain ⟨k1, k2, k3⟩ := hasR2Config_fields hcfg
  have t1 := raw_truthy_of_trim k1
  have t2 := raw_truthy_of_trim k2
  have t3 := raw_truthy_of_trim k3
  have hr1 := runRclone_configured env ("size r2:" ++ getR2BucketName env ++ "/")
    w.firstAttempt k1 k2 k3
  have hr2 := runRclone_configured env ("size r2:" ++ getR2BucketName env ++ "/")
    w.secondAttempt k1 k2 k3
  unfold storageTestHandler
  rw [t1, t2, t3]
  simp only [Bool.not_true, Bool.or_self, Bool.false_eq_true, if_false]
  rw [hr1, hr2]
  cases hs : w.firstAttempt.success <;> simp [normalizeExec, hs]

/-- C9 witness: a failing first probe followed by a succeeding second probe
makes exactly two calls and returns the second result. -/
theorem C9_probe_retry_once_witness :
    hasR2Config r2Env = true ∧
    (storageTestHandler r2Env ⟨⟨none, some "err", false, some 1⟩, ⟨some "ok", none, true, some 0⟩⟩).2 =
      (if (⟨none, some "err", false, some 1⟩ : ExecResult).success then 1 else 2) ∧
    (storageTestHandler r2Env ⟨⟨none, some "err", false, some 1⟩, ⟨some "ok", none, true, some 0⟩⟩).1 =
      (if (⟨none, some "err", false, some 1⟩ : ExecResult).success then
        StorageTestResp.probed true (getR2BucketName r2Env)
          ((⟨none, some "err", false, some 1⟩ : ExecResult).stdout.getD "")
          ((⟨none, some "err", false, some 1⟩ : ExecResult).stderr.getD "")
          ((⟨none, some "err", false, some 1⟩ : ExecResult).exitCode.getD 0)
       else
        StorageTestResp.probed (⟨some "ok", none, true, some 0⟩ : ExecResult).success
          (getR2BucketName r2Env)
          ((⟨some "ok", none, true, some 0⟩ : ExecResult).stdout.getD "")
          ((⟨some "ok", none, true, some 0⟩ : ExecResult).stderr.getD "")
          ((⟨some "ok", none, true, some 0⟩ : ExecResult).exitCode.getD
            (if (⟨some "ok", none, true, some 0⟩ : ExecResult).success then 0 else 1))) :=
  ⟨by decide,
   (C9_probe_retry_once r2Env ⟨⟨none, some "err", false, some 1⟩, ⟨some "ok", none, true, some 0⟩⟩
     (by decide)).1,
   (C9_probe_retry_once r2Env ⟨⟨none, some "err", false, some 1⟩, ⟨some "ok", none, true, some 0⟩⟩
     (by decide)).2⟩

/-- C1: with the three R2 secrets configured and a config directory present,
`syncToR2` succeeds exactly when the config-directory sync does: a config sync
failure returns immediately with `success:false`, error `Config sync failed`
and details truncated to the tail (at most 2000 characters) of the captured
output, while the results of the subsequent workspace and skills syncs are
discarded and cannot change the result; on success the result is
`success:true` with `lastSync` read back from the timestamp marker. -/
theorem C1_sync_fatal_only_config (env : Env) (w : SyncWorld)
    (hcfg : hasR2Config env = true)
    (hdir : (detectConfigDir w.detectStdout).isSome = true) :
    syncToR2 env w =
      (if w.configSync.success then
        { success := true, lastSync := w.catLastSyncStdout.map jsTrim
        , error := none, details := none }
       else configSyncFailure (normalizeExec w.configSync)) ∧
    (∀ res : RcloneRunResult, ((configSyncFailure res).details.getD "").length ≤ 2000) ∧
    (∀ ws sk : ExecResult,
      syncToR2 env w =
        syncToR2 env ⟨w.detectStdout, w.configSync, w.hasWorkspaceStdout, ws,
          w.hasSkillsStdout, sk, w.catLastSyncStdout⟩) := by
  obtain ⟨k1, k2, k3⟩ := hasR2Config_fields hcfg
  obtain ⟨dir, hdirEq⟩ := Option.isSome_iff_exists.mp hdir
  refine ⟨?_, ?_, ?_⟩
  · unfold syncToR2
    rw [hcfg, hdirEq]
    simp only [Bool.not_true, Bool.false_eq_true, if_false]
    rw [runRclone_configured env _ w.configSync k1 k2 k3]
    cases hs : w.configSync.success <;> simp [normalizeExec, hs]
  · intro res
    simp only [configSyncFailure, Option.getD_some]
    by_cases he : sliceLast 2000 (joinNonEmpty "\n---\n" [res.stderr, res.stdout]) = ""
    · simp [he]
      decide
    · rw [if_neg (by simpa using he)]
      exact sliceLast_length_le 2000 _
  · intro ws sk
    rfl

/-- C1 witness: configured secrets, an `openclaw` config directory and a
succeeding config sync yield `success:true` with the read-back timestamp. -/
theorem C1_sync_fatal_only_config_witness :
    (hasR2Config r2Env = true ∧
      (detectConfigDir (some "openclaw")).isSome = true) ∧
    syncToR2 r2Env
        ⟨some "openclaw", ⟨some "", none, true, some 0⟩, some "no",
          ⟨none, none, true, some 0⟩, some "no", ⟨none, none, true, some 0⟩,
          some "2026-02-03T04:05:06+00:00"⟩ =
      (if (⟨some "", none, true, some 0⟩ : ExecResult).success then
        { success := true
        , lastSync := (some "2026-02-03T04:05:06+00:00").map jsTrim
        , error := none, details := none }
       else configSyncFailure (normalizeExec ⟨some "", none, true, some 0⟩)) :=
  ⟨⟨by decide, by decide⟩,
   (C1_sync_fatal_only_config r2Env
     ⟨some "openclaw", ⟨some "", none, true, some 0⟩, some "no",
       ⟨none, none, true, some 0⟩, some "no", ⟨none, none, true, some 0⟩,
       some "2026-02-03T04:05:06+00:00"⟩ (by decide) (by decide)).1⟩

/-- C3 counterexample: the bootstrap comparison short-circuits.  With secret
`ab`, the tokens `xy` and `ax` have equal length and are both denied by the
middleware, yet the comparison inspects 1 character for `xy` and 2 characters
for `ax` — not the same number of bytes, contradicting timing-safety. -/
theorem C3_counterexample :
    ("xy" : String).length = ("ax" : String).length ∧
    ("xy" : String) ≠ "ab" ∧ ("ax" : String) ≠ "ab" ∧
    tokenEqSteps "xy".data "ab".data = 1 ∧
    tokenEqSteps "ax".data "ab".data = 2 ∧
    tokenEqSteps "xy".data "ab".data ≠ tokenEqSteps "ax".data "ab".data ∧
    createAccessMiddleware ⟨RespType.json, false⟩ noVerify
      ⟨none, none, none, none, none, none, some "ab", none, none, none⟩
      ⟨some "xy", none, none, none⟩ = bootstrapDeny ⟨RespType.json, false⟩ ∧
    createAccessMiddleware ⟨RespType.json, false⟩ noVerify
      ⟨none, none, none, none, none, none, some "ab", none, none, none⟩
      ⟨some "ax", none, none, none⟩ = bootstrapDeny ⟨RespType.json, false⟩ := by
  decide

/-- C3 (amended): the bootstrap check compares the caller-supplied token to
the configured secret with plain short-circuiting string equality: it accepts
exactly the configured secret (`tokenEq` agrees with equality), but it is not
timing-safe — the equal-length wrong tokens `xy` and `ax` against secret `ab`
are inspected for different numbers of bytes. -/
theorem C3_amended_short_circuit :
    (∀ p g : List Char, tokenEq p g = decide (p = g)) ∧
    ("xy" : String).length = ("ax" : String).length ∧
    ("xy" : String) ≠ "ab" ∧ ("ax" : String) ≠ "ab" ∧
    tokenEqSteps "xy".data "ab".data ≠ tokenEqSteps "ax".data "ab".data :=
  ⟨tokenEq_eq_decide, by decide, by decide, by decide, by decide⟩
